import Mathlib

/-!
Shallow embedding of `mikeio1d/res1d.py` (the `Res1D` facade class).

The Python class delegates to external collaborators (a result reader, a
result writer, a query-data converter, extractors and a merger).  We model
the object state of a `Res1D` instance explicitly (the observable fields of
its result reader, the active queue of `TimeSeriesId` objects held by
`result_network.queue`, and the `clear_queue_after_reading` flag), and the
behaviour of the external collaborators as an environment of uninterpreted
functions.  Each method returns, besides its value and the updated state,
the list of calls it makes to the external collaborators (an event trace),
so that "exactly this list is passed to the reader" is a statement about
the trace.  Opaque foreign objects (pandas data frames, .NET handles,
data entries, datetimes) are modelled as opaque numeric handles.
-/

/-- Canonical identifier of a single time series (`mikeio1d.quantities.TimeSeriesId`).
Its internal fields are irrelevant to `res1d.py`; it is an opaque token. -/
structure TimeSeriesId where
  tsid : Nat
deriving DecidableEq, Repr

/-- A user-facing query object (`mikeio1d.query.QueryData` and its subclasses).
Opaque to `res1d.py`; only its Python type matters there. -/
structure QueryData where
  qid : Nat
deriving DecidableEq, Repr

/-- An element of the `queries` list passed to `Res1D.read` / `Res1D.extract`:
Python allows both `TimeSeriesId` objects and `QueryData` objects in the list. -/
inductive QueryItem where
  | tsid (t : TimeSeriesId)
  | qd (q : QueryData)
deriving DecidableEq, Repr

/-- `isinstance(x, TimeSeriesId)` on a query list element. -/
def QueryItem.isTimeSeriesId : QueryItem → Bool
  | .tsid _ => true
  | .qd _ => false

/-- The `queries` argument of `read` / `extract`: `None`, a single query object,
or a list of query objects. -/
inductive QueriesArg where
  | none
  | single (q : QueryItem)
  | list (qs : List QueryItem)
deriving DecidableEq, Repr

/-- Opaque handle to a pandas `DataFrame` produced by the external reader. -/
abbrev DataFrame := Nat

/-- Opaque handle to a data entry produced by `TimeSeriesId.to_data_entry`. -/
abbrev DataEntry := Nat

/-- Opaque handle to a .NET `DateTime` object. -/
abbrev DotNetDateTime := Nat

/-- Opaque handle to a Python `datetime.datetime` object. -/
abbrev PyDateTime := Nat

/-- The `time` argument of `Res1D.get_reach_value`: either already a .NET
`DateTime` or a Python `datetime`. -/
inductive TimeArg where
  | dotnet (d : DotNetDateTime)
  | py (d : PyDateTime)
deriving DecidableEq, Repr

/-- The `ext` value used by `Res1D.extract`: either the result of
`os.path.splitext(file_path)[-1]` or one of the `ExtractorOutputFileType`
constants passed by `to_csv` / `to_dfs0` / `to_txt`. -/
inductive ExtValue where
  | fromPath (e : String)
  | csv
  | dfs0
  | txt
deriving DecidableEq, Repr

/-- Observable state of the .NET `ResultData` object reachable through
`result_reader.data`. -/
structure ResultData where
  projection_string : String
  /-- `data.Connection.FilePath.Path`. -/
  connection_file_path : String
deriving DecidableEq, Repr

/-- Observable fields of the result reader object created in `Res1D.__init__`
(its reading strategies themselves are external collaborators in the
environment). -/
structure ResultReader where
  file_path : String
  time_index : Nat
  quantities : List String
  query : Nat
  searcher : Nat
  data : ResultData
  /-- Value of `result_reader.is_lts_result_file()`. -/
  is_lts : Bool
deriving DecidableEq, Repr

/-- State of a `Res1D` instance: its result reader, the active queue
`result_network.queue` of `TimeSeriesId` objects, and the
`clear_queue_after_reading` flag. -/
structure Res1D where
  result_reader : ResultReader
  queue : List TimeSeriesId
  clear_queue_after_reading : Bool
deriving DecidableEq, Repr

/-- A call made by a `Res1D` method to an external collaborator. -/
inductive Event where
  /-- `QueryDataConverter.convert_queries_to_time_series_ids(self, queries)`. -/
  | converterConvert (queries : List QueryItem)
  /-- `self.result_reader.read(timeseries_ids, column_mode=column_mode)`. -/
  | readerRead (timeseries_ids : List QueryItem) (column_mode : Option String)
  /-- `self.result_reader.read_all(column_mode=column_mode)`. -/
  | readerReadAll (column_mode : Option String)
  /-- `self.result_writer.modify(data_frame)`. -/
  | writerModify (data_frame : DataFrame)
  /-- `self.data.Connection.FilePath.Path = file_path`. -/
  | dataSetFilePath (file_path : String)
  /-- `self.data.Save()`. -/
  | dataSave
  /-- `ExtractorCreator.create(ext, file_path, data_entries, self.data, tssn)`
  followed by `extractor.export()`. -/
  | extractorExport (ext : ExtValue) (file_path : String)
      (data_entries : List DataEntry) (time_step_skipping_number : Nat)
  /-- `ResultMerger(file_names)` followed by `result_merger.merge(merged_file_name)`. -/
  | mergerMerge (file_names : List String) (merged_file_name : String)
deriving DecidableEq, Repr

/-- Behaviour of the external collaborators, as uninterpreted functions. -/
structure Env where
  /-- Per-query canonicalization performed by the converter for one query. -/
  canonical : Res1D → QueryItem → TimeSeriesId
  /-- Value returned by `result_reader.read(timeseries_ids, column_mode)`. -/
  reader_read : List QueryItem → Option String → DataFrame
  /-- Value returned by `result_reader.read_all(column_mode)`. -/
  reader_read_all : Option String → DataFrame
  /-- Value of `t.to_data_entry(self)` for a list element `t`. -/
  to_data_entry : Res1D → QueryItem → DataEntry
  /-- Value of `os.path.splitext(file_path)[-1]` (the Python stdlib). -/
  splitext_ext : String → String
  /-- Value of `mikeio1d.dotnet.to_dotnet_datetime(time)`. -/
  to_dotnet_datetime : PyDateTime → DotNetDateTime
  /-- Value of `self.query.GetReachValue(reach_name, chainage, quantity, time)`,
  with the first argument the `ResultDataQuery` handle. -/
  get_reach_value : Nat → String → Int → String → DotNetDateTime → Nat

/-- Modelled from the spec: `make_list_if_not_iterable` from
`mikeio1d/various.py` (repository code not under `src/`).  Per the spec's
query model, a single non-list query argument is wrapped into a one-element
list, while `None` and lists are left unchanged. -/
def make_list_if_not_iterable : QueriesArg → Option (List QueryItem)
  | .none => Option.none
  | .single q => Option.some [q]
  | .list qs => Option.some qs

/-- Modelled from the spec:
`QueryDataConverter.convert_queries_to_time_series_ids(res1d, queries)` from
`mikeio1d/result_query/query_data_converter.py` (repository code not under
`src/`).  Per the spec it converts each user-supplied location+quantity query
into its canonical `TimeSeriesId`; the per-query canonicalization is the
environment's `canonical` function. -/
def convert_queries_to_time_series_ids (env : Env) (res : Res1D)
    (queries : List QueryItem) : List TimeSeriesId :=
  queries.map (env.canonical res)

/-- `Res1D._get_timeseries_ids_to_read(self, queries)`.  Returns the selection
together with the trace of converter calls. -/
def Res1D.get_timeseries_ids_to_read (env : Env) (r : Res1D)
    (queries : QueriesArg) : List QueryItem × List Event :=
  match make_list_if_not_iterable queries with
  | Option.none => (r.queue.map QueryItem.tsid, [])
  | Option.some [] => (r.queue.map QueryItem.tsid, [])
  | Option.some (q :: qs) =>
    if (QueryItem.isTimeSeriesId q) = true then
      (q :: qs, [])
    else
      ((convert_queries_to_time_series_ids env r (q :: qs)).map QueryItem.tsid,
        [Event.converterConvert (q :: qs)])

/-- `Res1D.clear_queue(self)`: `self.result_network.queue.clear()`. -/
def Res1D.clear_queue (r : Res1D) : Res1D :=
  { r with queue := [] }

/-- `Res1D.read_all(self, column_mode)`. -/
def Res1D.read_all (env : Env) (_r : Res1D) (column_mode : Option String) :
    DataFrame × List Event :=
  (env.reader_read_all column_mode, [Event.readerReadAll column_mode])

/-- Result of `Res1D.read`: the returned data frame, the state of the
instance after the call and the trace of external calls. -/
structure ReadResult where
  df : DataFrame
  state : Res1D
  trace : List Event
deriving DecidableEq, Repr

/-- `Res1D.read(self, queries, column_mode)`. -/
def Res1D.read (env : Env) (r : Res1D) (queries : QueriesArg)
    (column_mode : Option String) : ReadResult :=
  let tsev := r.get_timeseries_ids_to_read env queries
  let timeseries_ids := tsev.1
  if timeseries_ids.length = 0 then
    let dfev := r.read_all env column_mode
    { df := dfev.1, state := r, trace := tsev.2 ++ dfev.2 }
  else
    let df := env.reader_read timeseries_ids column_mode
    let r' := if r.clear_queue_after_reading then r.clear_queue else r
    { df := df, state := r',
      trace := tsev.2 ++ [Event.readerRead timeseries_ids column_mode] }

/-- Result of a `Res1D` method that returns no value: the state after the
call and the trace of external calls. -/
structure EffectResult where
  state : Res1D
  trace : List Event
deriving DecidableEq, Repr

/-- `Res1D.save(self, file_path)`. -/
def Res1D.save (r : Res1D) (file_path : String) : EffectResult :=
  { state :=
      { r with result_reader :=
          { r.result_reader with data :=
              { r.result_reader.data with connection_file_path := file_path } } },
    trace := [Event.dataSetFilePath file_path, Event.dataSave] }

/-- `Res1D.modify(self, data_frame, file_path)`. -/
def Res1D.modify (r : Res1D) (data_frame : DataFrame)
    (file_path : Option String) : EffectResult :=
  match file_path with
  | Option.none => { state := r, trace := [Event.writerModify data_frame] }
  | Option.some p =>
    let sv := r.save p
    { state := sv.state, trace := Event.writerModify data_frame :: sv.trace }

/-- The first line of `Res1D.extract`:
`ext = os.path.splitext(file_path)[-1] if ext is None else ext`. -/
def Res1D.resolve_ext (env : Env) (file_path : String)
    (ext : Option ExtValue) : ExtValue :=
  match ext with
  | Option.none => ExtValue.fromPath (env.splitext_ext file_path)
  | Option.some v => v

/-- `Res1D.extract(self, file_path, queries, time_step_skipping_number, ext)`. -/
def Res1D.extract (env : Env) (r : Res1D) (file_path : String)
    (queries : QueriesArg) (time_step_skipping_number : Nat)
    (ext : Option ExtValue) : EffectResult :=
  let e := Res1D.resolve_ext env file_path ext
  let tsev := r.get_timeseries_ids_to_read env queries
  let timeseries_ids := tsev.1
  let data_entries := timeseries_ids.map (env.to_data_entry r)
  let r' := if r.clear_queue_after_reading then r.clear_queue else r
  { state := r',
    trace := tsev.2 ++
      [Event.extractorExport e file_path data_entries time_step_skipping_number] }

/-- `Res1D.to_csv(self, file_path, queries, time_step_skipping_number)`. -/
def Res1D.to_csv (env : Env) (r : Res1D) (file_path : String)
    (queries : QueriesArg) (time_step_skipping_number : Nat) : EffectResult :=
  r.extract env file_path queries time_step_skipping_number
    (Option.some ExtValue.csv)

/-- `Res1D.to_dfs0(self, file_path, queries, time_step_skipping_number)`. -/
def Res1D.to_dfs0 (env : Env) (r : Res1D) (file_path : String)
    (queries : QueriesArg) (time_step_skipping_number : Nat) : EffectResult :=
  r.extract env file_path queries time_step_skipping_number
    (Option.some ExtValue.dfs0)

/-- `Res1D.to_txt(self, file_path, queries, time_step_skipping_number)`. -/
def Res1D.to_txt (env : Env) (r : Res1D) (file_path : String)
    (queries : QueriesArg) (time_step_skipping_number : Nat) : EffectResult :=
  r.extract env file_path queries time_step_skipping_number
    (Option.some ExtValue.txt)

/-- An element of the `file_names` argument of `Res1D.merge`: a `str` file
name or a `Res1D` object. -/
inductive FileNameEntry where
  | str (s : String)
  | res (r : Res1D)
deriving DecidableEq, Repr

/-- `Res1D._convert_res1d_to_str_for_file_names(file_names)`: replace each
`Res1D` entry by its `file_path` property, keep each `str` entry. -/
def Res1D.convert_res1d_to_str_for_file_names
    (file_names : List FileNameEntry) : List String :=
  file_names.map fun entry =>
    match entry with
    | FileNameEntry.res r => r.result_reader.file_path
    | FileNameEntry.str s => s

/-- `Res1D.merge(file_names, merged_file_name)` (a static method: no instance
state; its effect is the trace of the merger call). -/
def Res1D.merge (file_names : List FileNameEntry)
    (merged_file_name : String) : List Event :=
  let names := Res1D.convert_res1d_to_str_for_file_names file_names
  [Event.mergerMerge names merged_file_name]

/-- `Res1D.time_index` property access: the returned value and the state of
the instance afterwards. -/
def Res1D.time_index_prop (r : Res1D) : Nat × Res1D :=
  (r.result_reader.time_index, r)

/-- `Res1D.quantities` property access. -/
def Res1D.quantities_prop (r : Res1D) : List String × Res1D :=
  (r.result_reader.quantities, r)

/-- `Res1D.query` property access. -/
def Res1D.query_prop (r : Res1D) : Nat × Res1D :=
  (r.result_reader.query, r)

/-- `Res1D.searcher` property access. -/
def Res1D.searcher_prop (r : Res1D) : Nat × Res1D :=
  (r.result_reader.searcher, r)

/-- `Res1D.file_path` property access. -/
def Res1D.file_path_prop (r : Res1D) : String × Res1D :=
  (r.result_reader.file_path, r)

/-- `Res1D.data` property access. -/
def Res1D.data_prop (r : Res1D) : ResultData × Res1D :=
  (r.result_reader.data, r)

/-- `Res1D.projection_string` property access: `self.data.ProjectionString`. -/
def Res1D.projection_string_prop (r : Res1D) : String × Res1D :=
  (r.result_reader.data.projection_string, r)

/-- `Res1D.get_reach_value(self, reach_name, chainage, quantity, time)`.
`Except.error` models the raised `NotImplementedError`; the second component
is the state of the instance after the call. -/
def Res1D.get_reach_value (env : Env) (r : Res1D) (reach_name : String)
    (chainage : Int) (quantity : String) (time : TimeArg) :
    Except String Nat × Res1D :=
  if r.result_reader.is_lts = true then
    (Except.error "The method is not implemented for LTS event statistics.", r)
  else
    let time_dotnet := match time with
      | TimeArg.dotnet d => d
      | TimeArg.py d => env.to_dotnet_datetime d
    (Except.ok
      (env.get_reach_value r.result_reader.query reach_name chainage quantity
        time_dotnet), r)

/-! ## Theorems about the claims -/

/-- C1: for every non-empty list of `QueryData` queries passed to `Res1D.read`
or `Res1D.extract` whose first element is not a `TimeSeriesId`, the queries
are converted into canonical `TimeSeriesId` identifiers by
`QueryDataConverter.convert_queries_to_time_series_ids`, and exactly that
converted list is the selection passed to the result reader (for `read`) or
turned into data entries (for `extract`). -/
theorem read_extract_convert_nonempty_queries (env : Env) (r : Res1D)
    (q0 : QueryData) (rest : List QueryItem) (cm : Option String)
    (fp : String) (tss : Nat) (ext : Option ExtValue) :
    (Res1D.read env r (QueriesArg.list (QueryItem.qd q0 :: rest)) cm).trace =
      [Event.converterConvert (QueryItem.qd q0 :: rest),
       Event.readerRead
         ((convert_queries_to_time_series_ids env r (QueryItem.qd q0 :: rest)).map
           QueryItem.tsid) cm] ∧
    (Res1D.read env r (QueriesArg.list (QueryItem.qd q0 :: rest)) cm).df =
      env.reader_read
        ((convert_queries_to_time_series_ids env r (QueryItem.qd q0 :: rest)).map
          QueryItem.tsid) cm ∧
    (Res1D.extract env r fp (QueriesArg.list (QueryItem.qd q0 :: rest)) tss
        ext).trace =
      [Event.converterConvert (QueryItem.qd q0 :: rest),
       Event.extractorExport (Res1D.resolve_ext env fp ext) fp
         (((convert_queries_to_time_series_ids env r
             (QueryItem.qd q0 :: rest)).map QueryItem.tsid).map
           (env.to_data_entry r)) tss] := by
  refine ⟨?_, ?_, ?_⟩ <;>
    simp [Res1D.read, Res1D.extract, Res1D.get_timeseries_ids_to_read,
      make_list_if_not_iterable, QueryItem.isTimeSeriesId,
      convert_queries_to_time_series_ids]

/-- C2: whenever `Res1D.read` or `Res1D.extract` is called with
`queries=None` or an empty list and the active queue `result_network.queue`
is non-empty, the selection that is read or extracted is exactly the current
queue of `TimeSeriesId` objects. -/
theorem read_extract_use_nonempty_queue (env : Env) (rr : ResultReader)
    (t : TimeSeriesId) (ts : List TimeSeriesId) (flag : Bool)
    (cm : Option String) (fp : String) (tss : Nat) (ext : Option ExtValue) :
    (Res1D.read env ⟨rr, t :: ts, flag⟩ QueriesArg.none cm).trace =
      [Event.readerRead ((t :: ts).map QueryItem.tsid) cm] ∧
    (Res1D.read env ⟨rr, t :: ts, flag⟩ (QueriesArg.list []) cm).trace =
      [Event.readerRead ((t :: ts).map QueryItem.tsid) cm] ∧
    (Res1D.extract env ⟨rr, t :: ts, flag⟩ fp QueriesArg.none tss
        ext).trace =
      [Event.extractorExport (Res1D.resolve_ext env fp ext) fp
        (((t :: ts).map QueryItem.tsid).map
          (env.to_data_entry ⟨rr, t :: ts, flag⟩)) tss] ∧
    (Res1D.extract env ⟨rr, t :: ts, flag⟩ fp (QueriesArg.list []) tss
        ext).trace =
      [Event.extractorExport (Res1D.resolve_ext env fp ext) fp
        (((t :: ts).map QueryItem.tsid).map
          (env.to_data_entry ⟨rr, t :: ts, flag⟩)) tss] := by
  refine ⟨?_, ?_, ?_, ?_⟩ <;>
    simp [Res1D.read, Res1D.extract, Res1D.get_timeseries_ids_to_read,
      make_list_if_not_iterable]

/-- C3: for every `Res1D` instance whose active queue is empty, calling
`read` with `queries=None` (or an empty list) returns the same `DataFrame`
as calling `read_all` with the same `column_mode`. -/
theorem read_empty_queue_equals_read_all (env : Env) (rr : ResultReader)
    (flag : Bool) (cm : Option String) :
    (Res1D.read env ⟨rr, [], flag⟩ QueriesArg.none cm).df =
      (Res1D.read_all env ⟨rr, [], flag⟩ cm).1 ∧
    (Res1D.read env ⟨rr, [], flag⟩ (QueriesArg.list []) cm).df =
      (Res1D.read_all env ⟨rr, [], flag⟩ cm).1 := by
  constructor <;>
    simp [Res1D.read, Res1D.read_all, Res1D.get_timeseries_ids_to_read,
      make_list_if_not_iterable]

/-- C4: `Res1D.modify(data_frame, file_path)` always delegates the
modification to `result_writer.modify(data_frame)`, and it performs a save
(setting `data.Connection.FilePath.Path` to `file_path` and calling
`data.Save()`) if and only if `file_path` is not `None`; with
`file_path=None` no save happens and the state is unchanged. -/
theorem modify_delegates_and_saves_iff_file_path (r : Res1D)
    (df : DataFrame) (p : String) :
    Res1D.modify r df Option.none =
      { state := r, trace := [Event.writerModify df] } ∧
    Res1D.modify r df (Option.some p) =
      { state :=
          { r with result_reader :=
              { r.result_reader with data :=
                  { r.result_reader.data with connection_file_path := p } } },
        trace :=
          [Event.writerModify df, Event.dataSetFilePath p, Event.dataSave] } := by
  constructor <;> simp [Res1D.modify, Res1D.save]

/-- C5: `Res1D.merge` replaces each `Res1D` entry of the input list by its
`file_path`, leaves each `str` entry unchanged, preserves the order and the
length of the list, and passes the resulting file-name list to
`ResultMerger`, which merges into `merged_file_name`. -/
theorem merge_converts_file_name_entries (file_names : List FileNameEntry)
    (merged_file_name : String) (pre post : List FileNameEntry) (s : String)
    (r : Res1D) :
    Res1D.merge file_names merged_file_name =
      [Event.mergerMerge
        (Res1D.convert_res1d_to_str_for_file_names file_names)
        merged_file_name] ∧
    (Res1D.convert_res1d_to_str_for_file_names file_names).length =
      file_names.length ∧
    Res1D.convert_res1d_to_str_for_file_names
        (pre ++ FileNameEntry.str s :: post) =
      Res1D.convert_res1d_to_str_for_file_names pre ++
        s :: Res1D.convert_res1d_to_str_for_file_names post ∧
    Res1D.convert_res1d_to_str_for_file_names
        (pre ++ FileNameEntry.res r :: post) =
      Res1D.convert_res1d_to_str_for_file_names pre ++
        r.result_reader.file_path ::
          Res1D.convert_res1d_to_str_for_file_names post := by
  refine ⟨rfl, ?_, ?_, ?_⟩ <;>
    simp [Res1D.convert_res1d_to_str_for_file_names]

/-- C6: `to_csv`, `to_dfs0` and `to_txt` are each equivalent to calling
`extract` with the same `file_path`, `queries` and
`time_step_skipping_number` and the corresponding fixed output file type;
and when `extract` is called with `ext=None` it behaves as if called with
the extension of `file_path` obtained from `os.path.splitext`. -/
theorem to_flat_file_wrappers_equal_extract (env : Env) (r : Res1D)
    (fp : String) (qs : QueriesArg) (tss : Nat) :
    Res1D.to_csv env r fp qs tss =
      Res1D.extract env r fp qs tss (Option.some ExtValue.csv) ∧
    Res1D.to_dfs0 env r fp qs tss =
      Res1D.extract env r fp qs tss (Option.some ExtValue.dfs0) ∧
    Res1D.to_txt env r fp qs tss =
      Res1D.extract env r fp qs tss (Option.some ExtValue.txt) ∧
    Res1D.extract env r fp qs tss Option.none =
      Res1D.extract env r fp qs tss
        (Option.some (ExtValue.fromPath (env.splitext_ext fp))) := by
  exact ⟨rfl, rfl, rfl, rfl⟩

/-- C7: accessing the properties `time_index`, `quantities`, `query`,
`searcher`, `file_path`, `data` and `projection_string` returns the
corresponding value of the underlying result reader or engine object
unchanged and leaves every field of the `Res1D` object unchanged. -/
theorem properties_delegate_and_leave_state_unchanged (r : Res1D) :
    Res1D.time_index_prop r = (r.result_reader.time_index, r) ∧
    Res1D.quantities_prop r = (r.result_reader.quantities, r) ∧
    Res1D.query_prop r = (r.result_reader.query, r) ∧
    Res1D.searcher_prop r = (r.result_reader.searcher, r) ∧
    Res1D.file_path_prop r = (r.result_reader.file_path, r) ∧
    Res1D.data_prop r = (r.result_reader.data, r) ∧
    Res1D.projection_string_prop r =
      (r.result_reader.data.projection_string, r) := by
  exact ⟨rfl, rfl, rfl, rfl, rfl, rfl, rfl⟩

/-- C9: `Res1D.read` and `Res1D.extract` decide whether to convert the
supplied queries by inspecting only the type of the first element: for every
non-empty `queries` list whose first element is a `TimeSeriesId`, the entire
list is forwarded to the reader unconverted even if later elements are
`QueryData` objects, and a single non-list query argument is first wrapped
into a one-element list. -/
theorem first_element_type_decides_conversion (env : Env) (r : Res1D)
    (t : TimeSeriesId) (rest : List QueryItem) (q : QueryItem)
    (cm : Option String) (fp : String) (tss : Nat) (ext : Option ExtValue) :
    Res1D.get_timeseries_ids_to_read env r
        (QueriesArg.list (QueryItem.tsid t :: rest)) =
      (QueryItem.tsid t :: rest, []) ∧
    (Res1D.read env r (QueriesArg.list (QueryItem.tsid t :: rest)) cm).trace =
      [Event.readerRead (QueryItem.tsid t :: rest) cm] ∧
    (Res1D.extract env r fp (QueriesArg.list (QueryItem.tsid t :: rest)) tss
        ext).trace =
      [Event.extractorExport (Res1D.resolve_ext env fp ext) fp
        ((QueryItem.tsid t :: rest).map (env.to_data_entry r)) tss] ∧
    Res1D.get_timeseries_ids_to_read env r (QueriesArg.single q) =
      Res1D.get_timeseries_ids_to_read env r (QueriesArg.list [q]) := by
  refine ⟨?_, ?_, ?_, ?_⟩ <;>
    simp [Res1D.read, Res1D.extract, Res1D.get_timeseries_ids_to_read,
      make_list_if_not_iterable, QueryItem.isTimeSeriesId]

/-- C10: `Res1D.get_reach_value` raises `NotImplementedError` if and only if
the loaded file is an LTS event-statistics result file, leaving the object
state unchanged; otherwise it converts a Python `datetime` argument to a
.NET `DateTime` (passing an argument that already is a `DateTime` through
unchanged) and returns the engine's `GetReachValue` result for the given
reach, chainage and quantity. -/
theorem get_reach_value_lts_error_and_delegation (env : Env)
    (rr : ResultReader) (queue : List TimeSeriesId) (flag : Bool)
    (reach_name : String) (chainage : Int) (quantity : String)
    (time : TimeArg) (d : DotNetDateTime) (p : PyDateTime) :
    Res1D.get_reach_value env ⟨{ rr with is_lts := true }, queue, flag⟩
        reach_name chainage quantity time =
      (Except.error "The method is not implemented for LTS event statistics.",
        ⟨{ rr with is_lts := true }, queue, flag⟩) ∧
    Res1D.get_reach_value env ⟨{ rr with is_lts := false }, queue, flag⟩
        reach_name chainage quantity (TimeArg.dotnet d) =
      (Except.ok (env.get_reach_value rr.query reach_name chainage quantity d),
        ⟨{ rr with is_lts := false }, queue, flag⟩) ∧
    Res1D.get_reach_value env ⟨{ rr with is_lts := false }, queue, flag⟩
        reach_name chainage quantity (TimeArg.py p) =
      (Except.ok (env.get_reach_value rr.query reach_name chainage quantity
          (env.to_dotnet_datetime p)),
        ⟨{ rr with is_lts := false }, queue, flag⟩) := by
  refine ⟨?_, ?_, ?_⟩ <;> simp [Res1D.get_reach_value]

/-- C8: with `clear_queue_after_reading=True`, after every completed call to
`Res1D.read` or `Res1D.extract` the active queue `result_network.queue` is
empty; the branches that read a non-empty selection call `clear_queue()`,
and the `read` branch that falls back to `read_all` without clearing is
taken exactly when the selection is empty, which happens only when
`queries` is `None` or an empty list and the queue is already empty. -/
theorem queue_empty_after_read_and_extract (env : Env) (rr : ResultReader)
    (queue : List TimeSeriesId) (queries : QueriesArg) (cm : Option String)
    (fp : String) (tss : Nat) (ext : Option ExtValue) :
    (Res1D.read env ⟨rr, queue, true⟩ queries cm).state.queue = [] ∧
    (Res1D.extract env ⟨rr, queue, true⟩ fp queries tss ext).state.queue
      = [] ∧
    ((Res1D.get_timeseries_ids_to_read env ⟨rr, queue, true⟩ queries).1 = []
      ↔ queue = [] ∧
        (queries = QueriesArg.none ∨ queries = QueriesArg.list [])) := by
  rcases queries with _ | q | qs
  · refine ⟨?_, ?_, ?_⟩ <;>
      rcases queue with _ | ⟨t, ts⟩ <;>
        simp [Res1D.read, Res1D.read_all, Res1D.extract, Res1D.clear_queue,
          Res1D.get_timeseries_ids_to_read, make_list_if_not_iterable]
  · refine ⟨?_, ?_, ?_⟩ <;>
      rcases q with t | qd0 <;>
        simp [Res1D.read, Res1D.read_all, Res1D.extract, Res1D.clear_queue,
          Res1D.get_timeseries_ids_to_read, make_list_if_not_iterable,
          QueryItem.isTimeSeriesId, convert_queries_to_time_series_ids]
  · rcases qs with _ | ⟨q, rest⟩
    · refine ⟨?_, ?_, ?_⟩ <;>
        rcases queue with _ | ⟨t, ts⟩ <;>
          simp [Res1D.read, Res1D.read_all, Res1D.extract, Res1D.clear_queue,
            Res1D.get_timeseries_ids_to_read, make_list_if_not_iterable]
    · refine ⟨?_, ?_, ?_⟩ <;>
        rcases q with t | qd0 <;>
          simp [Res1D.read, Res1D.read_all, Res1D.extract, Res1D.clear_queue,
            Res1D.get_timeseries_ids_to_read, make_list_if_not_iterable,
            QueryItem.isTimeSeriesId, convert_queries_to_time_series_ids]
